import Mathlib

/-!
Verification of the C4D viewport-background preset manager
(src/BgPresets.py and src/ViewportBack/ViewportBack_Presets.py).

Modelling conventions for the shallow embedding:
* Python floats are modelled as rationals. All arithmetic the claims
  touch is division/multiplication by 100 and clamping, which the code
  performs losslessly on the sample values at issue; no claim is about
  rounding behaviour of binary floating point.
* The transparency field is stored in the JSON record as a string
  produced by percent-g formatting of a float. Percent-g formatting
  is a function of the numeric value, so two records hold the same
  transparency string iff the underlying numeric values coincide
  (on the values appearing here: it renders 1 as "1" and 100 as "100").
  We therefore model the string by the rational it denotes.
* Python dicts holding preset fields are modelled by the structure
  PresetDict with one Option per key; a missing key is none.
  The empty dict (falsy in Python) is the all-none record.
* The JSON document on disk is modelled by FileState: the file can be
  missing, hold text that is not valid JSON, or hold a parsed JSON
  value. The json library codec is modelled as exact (json.dump
  followed by json.load is the identity on the values stored here:
  strings, ints and floats all round-trip exactly through it).
-/

/-- A JSON value, as produced by json.load: null, bool, number,
string, array or object (numbers modelled as rationals). -/
inductive Json where
  | null : Json
  | bool : Bool → Json
  | num : ℚ → Json
  | str : String → Json
  | arr : List Json → Json
  | obj : List (String × Json) → Json

/-- State of the preset file on disk: absent, present but not valid
JSON text, or present with a parsed JSON value. -/
inductive FileState where
  | missing : FileState
  | invalid : FileState
  | valid : Json → FileState

/-- From src/BgPresets.py, read_json: open and json.load the prefs
file; a missing file or a parse error raises and is caught, returning
the empty list; a parsed value that is not a list also yields the
empty list. -/
def read_json : FileState → List Json
  | .missing => []
  | .invalid => []
  | .valid j =>
    match j with
    | .arr xs => xs
    | _ => []

/-- From src/ViewportBack/ViewportBack_Presets.py, read_json: same as
the BgPresets variant except the missing-file case is handled by an
explicit isfile check before opening rather than by the except clause. -/
def read_json_vb : FileState → List Json
  | .missing => []
  | .invalid => []
  | .valid j =>
    match j with
    | .arr xs => xs
    | _ => []

/-- From src/BgPresets.py, write_json: json.dump the full list,
overwriting the file completely (the previous file state is ignored). -/
def write_json (items : List Json) : FileState :=
  .valid (.arr items)

/-- Lookup of a key in a JSON object field list (python dict access). -/
def jlookup (kvs : List (String × Json)) (k : String) : Option Json :=
  match kvs with
  | [] => none
  | (k2, v) :: rest => if k2 = k then some v else jlookup rest k

/-- From src/BgPresets.py, safe_float: float(s) with fallback 0.0.
Modelled on numeric inputs, where the conversion is the identity;
the parse-failure fallback does not arise on the values the claims
evaluate (they are all produced numerically by the tool itself). -/
def safe_float (v : ℚ) : ℚ := v

/-- From src/BgPresets.py, transp_to_api: stored percentage value to
live fraction; divide by 100 when strictly greater than 1.0, else
write the value unchanged. -/
def transp_to_api (v : ℚ) : ℚ :=
  let f := safe_float v
  if f > 1 then f / 100 else f

/-- From src/BgPresets.py, transp_to_txt: live fraction to the
percentage value rendered into the stored string: clamp to the unit
interval, then multiply by 100. -/
def transp_to_txt (f : ℚ) : ℚ :=
  max 0 (min 1 f) * 100

/-- Background image sampling mode (the two host mode codes that
appear in the MODE tables). -/
inductive ModeCode where
  | nearest : ModeCode
  | linear : ModeCode
deriving DecidableEq

/-- Alpha-channel handling mode (the three host alpha codes that
appear in the ALPHA tables). -/
inductive AlphaCode where
  | noAlpha : AlphaCode
  | normal : AlphaCode
  | inverted : AlphaCode
deriving DecidableEq

/-- MODE_FROM_TXT.get with default LINEAR (src/BgPresets.py). -/
def modeFromTxt (s : String) : ModeCode :=
  if s = "Nearest" then .nearest
  else if s = "Linear" then .linear
  else .linear

/-- MODE_TO_TXT.get with default "Linear" (src/BgPresets.py). -/
def modeToTxt : ModeCode → String
  | .nearest => "Nearest"
  | .linear => "Linear"

/-- ALPHA_FROM_TXT.get with default ALPHA_NONE (src/BgPresets.py). -/
def alphaFromTxt (s : String) : AlphaCode :=
  if s = "None" then .noAlpha
  else if s = "Normal" then .normal
  else if s = "Inverted" then .inverted
  else .noAlpha

/-- ALPHA_TO_TXT.get with default "None" (src/BgPresets.py). -/
def alphaToTxt : AlphaCode → String
  | .noAlpha => "None"
  | .normal => "Normal"
  | .inverted => "Inverted"

/-- A preset record: a python dict with up to ten keys; a missing key
is none. transp holds the numeric value of the stored percentage
string (see the modelling note above). -/
structure PresetDict where
  image : Option String := none
  mode : Option String := none
  keep : Option ℤ := none
  offX : Option ℚ := none
  offY : Option ℚ := none
  rot : Option ℚ := none
  sizeX : Option ℚ := none
  sizeY : Option ℚ := none
  transp : Option ℚ := none
  alpha : Option String := none
deriving DecidableEq

/-- The writable background-parameter surface of a live viewport
(the BASEDRAW_DATA slots the scripts read and write). -/
structure Viewport where
  showPicture : Bool
  picture : String
  backImageMode : ModeCode
  keepAspect : Bool
  offX : ℚ
  offY : ℚ
  rot : ℚ
  sizeX : ℚ
  sizeY : ℚ
  transparency : ℚ
  useAlpha : AlphaCode
deriving DecidableEq

/-- From src/BgPresets.py, grab_current_dict on a present viewport:
read every background parameter into a fresh ten-key dict, converting
the live transparency fraction to a percentage value and the enum
codes to their display names. -/
def grabV (v : Viewport) : PresetDict :=
  { image := some v.picture
    mode := some (modeToTxt v.backImageMode)
    keep := some (if v.keepAspect then 1 else 0)
    offX := some v.offX
    offY := some v.offY
    rot := some v.rot
    sizeX := some v.sizeX
    sizeY := some v.sizeY
    transp := some (transp_to_txt v.transparency)
    alpha := some (alphaToTxt v.useAlpha) }

/-- grab_current_dict: none when there is no active viewport. -/
def grab_current_dict (bd : Option Viewport) : Option PresetDict :=
  bd.map grabV

/-- One parameter write performed on the viewport by an apply pass. -/
inductive BDWrite where
  | showPicture : Bool → BDWrite
  | picture : String → BDWrite
  | backImageMode : ModeCode → BDWrite
  | keepAspect : Bool → BDWrite
  | offX : ℚ → BDWrite
  | offY : ℚ → BDWrite
  | rot : ℚ → BDWrite
  | sizeX : ℚ → BDWrite
  | sizeY : ℚ → BDWrite
  | transparency : ℚ → BDWrite
  | useAlpha : AlphaCode → BDWrite
deriving DecidableEq

/-- Effect of one parameter write on the viewport state. -/
def applyWrite (v : Viewport) : BDWrite → Viewport
  | .showPicture b => { v with showPicture := b }
  | .picture s => { v with picture := s }
  | .backImageMode m => { v with backImageMode := m }
  | .keepAspect b => { v with keepAspect := b }
  | .offX q => { v with offX := q }
  | .offY q => { v with offY := q }
  | .rot q => { v with rot := q }
  | .sizeX q => { v with sizeX := q }
  | .sizeY q => { v with sizeY := q }
  | .transparency q => { v with transparency := q }
  | .useAlpha a => { v with useAlpha := a }

/-- keep_saved in apply_once: bool(it.get("keep", 1)), i.e. the RECORD
keep field (default 1) coerced to a boolean. -/
def keepSaved (it : PresetDict) : Bool :=
  it.keep.getD 1 ≠ 0

/-- The ordered parameter writes performed by apply_once in
src/BgPresets.py: first clear the aspect lock, then write show-picture,
picture, mode, offsets, rotation, sizes, transparency and alpha from
the record (with the documented defaults for missing keys), and
finally write keep_saved back to the aspect lock. -/
def apply_once_writes (it : PresetDict) : List BDWrite :=
  [ .keepAspect false,
    .showPicture true,
    .picture (it.image.getD ""),
    .backImageMode (modeFromTxt (it.mode.getD "Linear")),
    .offX (it.offX.getD 0),
    .offY (it.offY.getD 0),
    .rot (it.rot.getD 0),
    .sizeX (it.sizeX.getD 0),
    .sizeY (it.sizeY.getD 0),
    .transparency (transp_to_api (it.transp.getD 0)),
    .useAlpha (alphaFromTxt (it.alpha.getD "None")),
    .keepAspect (keepSaved it) ]

/-- apply_once on a present viewport: fold the write sequence. -/
def applyOnceV (it : PresetDict) (v : Viewport) : Viewport :=
  (apply_once_writes it).foldl applyWrite v

/-- From src/BgPresets.py, apply_once: returns false and touches
nothing when no viewport is active, else performs the writes and
returns true. -/
def apply_once (it : PresetDict) (bd : Option Viewport) :
    Option Viewport × Bool :=
  match bd with
  | none => (none, false)
  | some v => (some (applyOnceV it v), true)

/-- The ordered parameter writes performed by apply_dict_to_viewport
in src/ViewportBack/ViewportBack_Presets.py: show-picture first, then
picture, mode, the aspect lock from the record keep field, offsets,
rotation, sizes, transparency and alpha (no temporary lock clearing
in this variant). -/
def apply_dict_writes (it : PresetDict) : List BDWrite :=
  [ .showPicture true,
    .picture (it.image.getD ""),
    .backImageMode (modeFromTxt (it.mode.getD "Linear")),
    .keepAspect (keepSaved it),
    .offX (it.offX.getD 0),
    .offY (it.offY.getD 0),
    .rot (it.rot.getD 0),
    .sizeX (it.sizeX.getD 0),
    .sizeY (it.sizeY.getD 0),
    .transparency (transp_to_api (it.transp.getD 0)),
    .useAlpha (alphaFromTxt (it.alpha.getD "None")) ]

/-- apply_dict_to_viewport on a present viewport. -/
def applyDictV (it : PresetDict) (v : Viewport) : Viewport :=
  (apply_dict_writes it).foldl applyWrite v

/-- From src/ViewportBack/ViewportBack_Presets.py,
apply_dict_to_viewport: false when no viewport, else perform the
writes and return true. -/
def apply_dict_to_viewport (it : PresetDict) (bd : Option Viewport) :
    Option Viewport × Bool :=
  match bd with
  | none => (none, false)
  | some v => (some (applyDictV it v), true)

/-- os.path.basename, posix behaviour: the part after the last
slash (empty input gives the empty string). -/
def basename (s : String) : String :=
  (s.splitOn "/").getLastD ""

/-- The displayed components of the one-line list label built by
fmt_item_for_list (the f-string is modelled by the tuple of values
interpolated into it; %g renderings are modelled by their values). -/
structure FmtItem where
  base : String
  mode : String
  alpha : String
  sizeX : ℚ
  sizeY : ℚ
  offX : ℚ
  offY : ℚ
  rot : ℚ
  transp : ℚ
deriving DecidableEq

/-- From src/BgPresets.py, fmt_item_for_list: basename of the image
(or the "(no image)" placeholder when falsy), then mode, alpha, sizes,
offsets, rotation and the raw transp value, each with the documented
dict-get default. -/
def fmt_item_for_list (it : PresetDict) : FmtItem :=
  { base :=
      let b := basename (it.image.getD "")
      if b = "" then "(no image)" else b
    mode := it.mode.getD "Linear"
    alpha := it.alpha.getD "None"
    sizeX := it.sizeX.getD 0
    sizeY := it.sizeY.getD 0
    offX := it.offX.getD 0
    offY := it.offY.getD 0
    rot := it.rot.getD 0
    transp := it.transp.getD 0 }

/-- A record with every missing key replaced by the documented
default: image "", mode "Linear", keep 1, numeric fields 0, transp 0,
alpha "None". -/
def fillDefaults (it : PresetDict) : PresetDict :=
  { image := some (it.image.getD "")
    mode := some (it.mode.getD "Linear")
    keep := some (it.keep.getD 1)
    offX := some (it.offX.getD 0)
    offY := some (it.offY.getD 0)
    rot := some (it.rot.getD 0)
    sizeX := some (it.sizeX.getD 0)
    sizeY := some (it.sizeY.getD 0)
    transp := some (it.transp.getD 0)
    alpha := some (it.alpha.getD "None") }

/-- Helper for encoding a dict: include the key only when present. -/
def consOpt (k : String) (o : Option Json) (rest : List (String × Json)) :
    List (String × Json) :=
  match o with
  | some j => (k, j) :: rest
  | none => rest

/-- Serialization of one preset dict into a JSON object, keys in the
insertion order used by grab_current_dict; absent keys are omitted. -/
def encodeItem (it : PresetDict) : Json :=
  .obj (consOpt "image" (it.image.map .str)
    (consOpt "mode" (it.mode.map .str)
    (consOpt "keep" (it.keep.map fun n => .num (n : ℚ))
    (consOpt "offX" (it.offX.map .num)
    (consOpt "offY" (it.offY.map .num)
    (consOpt "rot" (it.rot.map .num)
    (consOpt "sizeX" (it.sizeX.map .num)
    (consOpt "sizeY" (it.sizeY.map .num)
    (consOpt "transp" (it.transp.map .num)
    (consOpt "alpha" (it.alpha.map .str) []))))))))))

/-- TIMER_DELAY_MS in PresetDialog (src/BgPresets.py). -/
def TIMER_DELAY_MS : ℕ := 20

/-- State of the PresetDialog in src/BgPresets.py: the tree model
(items plus selection set) and the delayed re-apply machinery.
timer_interval models the interval currently passed to SetTimer
(0 = disabled). -/
structure DialogState where
  items : List PresetDict
  sel : Finset ℕ
  pending_apply : Option PresetDict
  timer_armed : Bool
  timer_interval : ℕ
deriving DecidableEq

/-- PresetDialog selected_indices: sorted(self.model.sel). -/
def selected_indices (s : Finset ℕ) : List ℕ :=
  s.sort (· ≤ ·)

/-- Selection modes of PresetModel.Select. -/
inductive SelMode where
  | selNew : SelMode
  | selAdd : SelMode
  | selSub : SelMode

/-- PresetModel.Select: replace, add to, or remove from the
selection set; nothing else in the state changes. -/
def modelSelect (st : DialogState) (obj : ℕ) (mode : SelMode) :
    DialogState :=
  match mode with
  | .selNew => { st with sel := {obj} }
  | .selAdd => { st with sel := insert obj st.sel }
  | .selSub => { st with sel := st.sel.erase obj }

/-- The IDC_ADD branch of PresetDialog.Command: grab the live
viewport; on failure show a dialog and change nothing (the file is
not rewritten); else append the grabbed record, keep the selection,
and rewrite the file with the full list. -/
def cmdAdd (st : DialogState) (vp : Option Viewport) (fs : FileState) :
    DialogState × FileState :=
  match grab_current_dict vp with
  | none => (st, fs)
  | some it =>
    let st2 := { st with items := st.items ++ [it] }
    (st2, write_json (st2.items.map encodeItem))

/-- The IDC_DEL branch of PresetDialog.Command: with an empty
selection show a status message and change nothing; else pop the
selected indices highest-first (each guarded by a range check),
clear the selection and rewrite the file with the full list. -/
def cmdDel (st : DialogState) (fs : FileState) :
    DialogState × FileState :=
  let sel := selected_indices st.sel
  match sel with
  | [] => (st, fs)
  | _ =>
    let items2 := sel.reverse.foldl
      (fun acc idx => if idx < acc.length then acc.eraseIdx idx else acc)
      st.items
    let st2 := { st with items := items2, sel := (∅ : Finset ℕ) }
    (st2, write_json (items2.map encodeItem))

/-- The IDC_APPLY branch of PresetDialog.Command: unless exactly one
index is selected, show a status message and change nothing. With one
selected index, read the item (none models the uncaught IndexError on
a stale index), apply it once to the viewport now, store a copy of it
as the pending snapshot, and arm the timer only if it is not armed
already. -/
def cmdApply (st : DialogState) (vp : Option Viewport) :
    Option (DialogState × Option Viewport) :=
  match selected_indices st.sel with
  | [i] =>
    match st.items[i]? with
    | none => none
    | some item =>
      some ({ st with
                pending_apply := some item,
                timer_interval :=
                  if st.timer_armed then st.timer_interval else TIMER_DELAY_MS,
                timer_armed := true },
            (apply_once item vp).1)
  | _ => some (st, vp)

/-- PresetDialog.Timer: a no-op while disarmed; else re-apply the
pending snapshot when it is truthy (a non-None, non-empty dict) and
clear it, then disable the timer and disarm. -/
def dialogTimer (st : DialogState) (vp : Option Viewport) :
    DialogState × Option Viewport :=
  if st.timer_armed = false then (st, vp)
  else
    match st.pending_apply with
    | some p =>
      if p = {} then
        ({ st with timer_armed := false, timer_interval := 0 }, vp)
      else
        ({ st with pending_apply := none, timer_armed := false,
                   timer_interval := 0 },
         (apply_once p vp).1)
    | none => ({ st with timer_armed := false, timer_interval := 0 }, vp)

/-- Extract a field of a JSON value when it is an object. -/
def jGet (j : Json) (k : String) : Option Json :=
  match j with
  | .obj l => jlookup l k
  | _ => none

/-- C5: corrupt-state recovery of load. For a missing file, a file
whose text is not valid JSON, and a file whose top-level JSON value
is not an array, both read_json variants return the empty sequence.
(Both are total Lean functions, so no error can propagate; the
python except clauses that make this so are part of the embedding.) -/
theorem C5_load_corrupt_recovery :
    read_json .missing = [] ∧ read_json .invalid = [] ∧
    read_json_vb .missing = [] ∧ read_json_vb .invalid = [] ∧
    ∀ j : Json, (∀ xs, j ≠ Json.arr xs) →
      read_json (.valid j) = [] ∧ read_json_vb (.valid j) = [] := by
  refine ⟨rfl, rfl, rfl, rfl, ?_⟩
  intro j h
  cases j with
  | arr xs => exact absurd rfl (h xs)
  | null => exact ⟨rfl, rfl⟩
  | bool b => exact ⟨rfl, rfl⟩
  | num q => exact ⟨rfl, rfl⟩
  | str s => exact ⟨rfl, rfl⟩
  | obj l => exact ⟨rfl, rfl⟩

/-- Witness for C5 at the concrete non-array document given in the
spec, the empty JSON object. -/
theorem C5_load_corrupt_recovery_witness :
    read_json (.valid (Json.obj [])) = [] ∧
    read_json_vb (.valid (Json.obj [])) = [] :=
  C5_load_corrupt_recovery.2.2.2.2 (Json.obj [])
    (fun _ h => Json.noConfusion h)

/-- C2: persistence round-trip. Saving the one-element list holding
an arbitrary record (a JSON object with any fields, so in particular
one with transp as a percentage string) and loading again returns
exactly that record, and every field lookup on the returned record
agrees with the original, for every key. -/
theorem C2_save_load_roundtrip (kvs : List (String × Json)) :
    read_json (write_json [Json.obj kvs]) = [Json.obj kvs] ∧
    ∀ k : String,
      (read_json (write_json [Json.obj kvs])).head?.map (jGet · k) =
        some (jlookup kvs k) := by
  exact ⟨rfl, fun k => rfl⟩

/-- C10: apply always turns the background picture on. Both apply
variants end with the show-picture flag true for every record and
every initial viewport state, and the write that does it is placed
before all the field writes taken from the record (the record has no
show-picture field at all, so no preset can restore a hidden
background picture). -/
theorem C10_apply_forces_show_picture (it : PresetDict) (v : Viewport) :
    (applyOnceV it v).showPicture = true ∧
    (applyDictV it v).showPicture = true ∧
    (apply_once_writes it)[1]? = some (.showPicture true) ∧
    (apply_dict_writes it)[0]? = some (.showPicture true) := by
  exact ⟨rfl, rfl, rfl, rfl⟩

/-- C8: missing-key defaults. Applying a record to a viewport and
formatting it for display behave exactly as on the record whose
missing keys are replaced by image "", mode "Linear", keep 1,
offX/offY/rot/sizeX/sizeY 0, transp 0 and alpha "None". -/
theorem C8_missing_key_defaults (it : PresetDict) (v : Viewport) :
    applyOnceV it v = applyOnceV (fillDefaults it) v ∧
    fmt_item_for_list it = fmt_item_for_list (fillDefaults it) := by
  exact ⟨rfl, rfl⟩

/-- C6: multi-delete reindexing. Deleting selection positions 1 and 3
(0-based) from a 5-element list, which the handler does highest index
first, leaves exactly the original elements at positions 0, 2 and 4
in their original relative order, and clears the selection. -/
theorem C6_multi_delete_reindexing (a b c d e : PresetDict)
    (p : Option PresetDict) (t : Bool) (n : ℕ) (fs : FileState) :
    ((cmdDel ⟨[a, b, c, d, e], {1, 3}, p, t, n⟩ fs).1).items = [a, c, e] ∧
    ((cmdDel ⟨[a, b, c, d, e], {1, 3}, p, t, n⟩ fs).1).sel = ∅ := by
  have h : selected_indices ({1, 3} : Finset ℕ) = [1, 3] := by
    show Finset.sort (· ≤ ·) (insert 1 {3}) = [1, 3]
    rw [Finset.sort_insert, Finset.sort_singleton]
    · intro b hb
      simp only [Finset.mem_singleton] at hb
      omega
    · decide
  constructor <;> simp [cmdDel, h]

/-- C7: Apply singleton-selection guard. When the selection holds
zero or at least two indices, the Apply handler returns with the
dialog state and the viewport both completely unchanged (only a
status message is shown). -/
theorem C7_apply_singleton_guard (st : DialogState) (vp : Option Viewport)
    (h : st.sel.card ≠ 1) :
    cmdApply st vp = some (st, vp) := by
  have hl : (selected_indices st.sel).length = st.sel.card :=
    Finset.length_sort (· ≤ ·)
  rcases hsel : selected_indices st.sel with _ | ⟨i, _ | ⟨j, rest⟩⟩
  · simp [cmdApply, hsel]
  · exact absurd (by rw [← hl, hsel]; rfl) h
  · simp [cmdApply, hsel]

/-- Witness for C7: an empty selection (0 indices) leaves everything
unchanged. -/
theorem C7_apply_singleton_guard_witness :
    cmdApply ⟨[], ∅, none, false, 0⟩ none =
      some (⟨[], ∅, none, false, 0⟩, none) :=
  C7_apply_singleton_guard _ _ (by decide)

/-- C4 fails as stated: a completed Add with a prior selection does
NOT clear the selection. Concretely, adding from a live viewport
while item 0 is selected leaves the selection equal to the prior
selection and nonempty. -/
theorem C4_counterexample :
    ((cmdAdd ⟨[{}], {0}, none, false, 0⟩
        (some ⟨false, "", .linear, false, 0, 0, 0, 0, 0, 0, .noAlpha⟩)
        .missing).1).sel = {0} ∧
    ({0} : Finset ℕ) ≠ (∅ : Finset ℕ) := by
  constructor
  · rfl
  · decide

/-- C4 amended: after every completed Delete the selection set is
empty (also in the no-selection branch, where it was already empty),
while Add leaves the selection set unchanged (the new record is
appended at the end, so prior indices stay valid and are kept). -/
theorem C4_selection_invalidation_amended (st : DialogState)
    (vp : Option Viewport) (fs fs2 : FileState) :
    ((cmdDel st fs).1).sel = ∅ ∧ ((cmdAdd st vp fs2).1).sel = st.sel := by
  constructor
  · rcases hsel : selected_indices st.sel with _ | ⟨i, rest⟩
    · have hc : st.sel.card = 0 := by
        have h2 := congrArg List.length hsel
        simpa [selected_indices, Finset.length_sort] using h2
      have he : st.sel = ∅ := Finset.card_eq_zero.mp hc
      simp only [cmdDel, hsel]
      exact he
    · simp [cmdDel, hsel]
  · cases vp with
    | none => rfl
    | some v => rfl

/-- C3 fails as stated: the final aspect-lock write does not restore
the flag to its pre-apply value; it writes the RECORD keep field.
Applying a record with keep = 0 to a viewport whose lock flag is
initially true leaves the flag false. -/
theorem C3_counterexample :
    (Viewport.keepAspect ⟨false, "", .linear, true, 0, 0, 0, 0, 0, 0, .noAlpha⟩
      = true) ∧
    (applyOnceV { keep := some 0 }
        ⟨false, "", .linear, true, 0, 0, 0, 0, 0, 0, .noAlpha⟩).keepAspect
      = false := by
  constructor
  · rfl
  · rfl

/-- C3 amended: the workaround apply clears the aspect-lock flag as
its very first write, writes all fields, and as its last write sets
the flag to the boolean of the RECORD keep field (default 1), not the
viewport's prior value; in particular applying a record with keep = 1
to a viewport whose lock flag was initially true leaves it true. -/
theorem C3_aspect_lock_amended (it : PresetDict) (v : Viewport) :
    (applyOnceV it v).keepAspect = keepSaved it ∧
    (apply_once_writes it).head? = some (.keepAspect false) ∧
    (apply_once_writes it).getLast? = some (.keepAspect (keepSaved it)) ∧
    (it.keep = some 1 ∧ v.keepAspect = true →
      (applyOnceV it v).keepAspect = true) := by
  refine ⟨rfl, rfl, rfl, ?_⟩
  rintro ⟨h1, _⟩
  show keepSaved it = true
  simp [keepSaved, h1]

/-- Witness for C3 amended at a concrete record with keep = 1 and a
viewport with the lock initially engaged. -/
theorem C3_aspect_lock_amended_witness :
    (applyOnceV { keep := some 1 }
        ⟨false, "", .linear, true, 0, 0, 0, 0, 0, 0, .noAlpha⟩).keepAspect
      = true :=
  (C3_aspect_lock_amended { keep := some 1 }
      ⟨false, "", .linear, true, 0, 0, 0, 0, 0, 0, .noAlpha⟩).2.2.2
    ⟨rfl, rfl⟩

/-- The transparency encoding is a fixed point of
text-to-api-to-text exactly when the live fraction is nonpositive
(clamped to 0) or strictly above 1/100 (so the stored percentage is
strictly above 1 and the apply conversion divides by 100 again). -/
theorem transp_roundtrip_fixed (f : ℚ) (h : f ≤ 0 ∨ 1 / 100 < f) :
    transp_to_txt (transp_to_api (transp_to_txt f)) = transp_to_txt f := by
  rcases h with h | h
  · have h1 : f ≤ 1 := le_trans h (by norm_num)
    have e1 : transp_to_txt f = 0 := by
      rw [transp_to_txt, min_eq_right h1, max_eq_left h]
      ring
    rw [e1]
    have e2 : transp_to_api 0 = 0 := by norm_num [transp_to_api, safe_float]
    rw [e2]
    norm_num [transp_to_txt]
  · have hc0 : 0 ≤ max 0 (min 1 f) := le_max_left _ _
    have hc1 : max 0 (min 1 f) ≤ 1 :=
      max_le (by norm_num) (min_le_left _ _)
    have hcgt : 1 / 100 < max 0 (min 1 f) :=
      lt_of_lt_of_le (lt_min (by norm_num) h) (le_max_right _ _)
    have htxt : transp_to_txt f = max 0 (min 1 f) * 100 := rfl
    have hgt1 : (1 : ℚ) < max 0 (min 1 f) * 100 := by
      have := mul_lt_mul_of_pos_right hcgt (by norm_num : (0 : ℚ) < 100)
      simpa using this
    have hapi : transp_to_api (max 0 (min 1 f) * 100) = max 0 (min 1 f) := by
      simp only [transp_to_api, safe_float]
      rw [if_pos hgt1]
      exact mul_div_cancel_right₀ _ (by norm_num)
    rw [htxt, hapi, transp_to_txt, min_eq_right hc1, max_eq_right hc0]

/-- C1 fails as stated at the transparency percentage sample point 1:
with live fraction 1/100 the captured percentage value is 1, the
apply conversion writes 1 back unchanged (1 is not strictly greater
than 1, so it is read as the fraction 100 percent), and the second
capture yields 100 — a different percentage string ("100" vs "1"). -/
theorem C1_counterexample :
    let v0 : Viewport :=
      ⟨true, "", .linear, false, 0, 0, 0, 0, 0, 1 / 100, .noAlpha⟩
    (grabV v0).transp = some 1 ∧
    (grabV (applyOnceV (grabV v0) v0)).transp = some 100 ∧
    (grabV (applyOnceV (grabV v0) v0)).transp ≠ (grabV v0).transp := by
  intro v0
  have e1 : (grabV v0).transp = some 1 := by
    show some (transp_to_txt (1 / 100 : ℚ)) = some 1
    norm_num [transp_to_txt, min_def, max_def]
  have e2 : (grabV (applyOnceV (grabV v0) v0)).transp = some 100 := by
    show some (transp_to_txt (transp_to_api (transp_to_txt (1 / 100 : ℚ)))) =
      some 100
    norm_num [transp_to_txt, transp_to_api, safe_float, min_def, max_def]
  refine ⟨e1, e2, ?_⟩
  rw [e1, e2]
  norm_num

/-- C1 amended: capture-apply-capture is a fixed point of the
transparency encoding for every live fraction that is nonpositive or
strictly above 1/100 — that is, for every captured percentage that is
0 or strictly above 1, which includes the sample points 0, 50, 99 and
100 but excludes the sample point 1 (and all of the interval (0, 1]). -/
theorem C1_capture_apply_capture_amended (v : Viewport)
    (h : v.transparency ≤ 0 ∨ 1 / 100 < v.transparency) :
    (grabV (applyOnceV (grabV v) v)).transp = (grabV v).transp := by
  have key := transp_roundtrip_fixed v.transparency h
  show some (transp_to_txt (applyOnceV (grabV v) v).transparency) =
    some (transp_to_txt v.transparency)
  have happ : (applyOnceV (grabV v) v).transparency =
      transp_to_api (transp_to_txt v.transparency) := rfl
  rw [happ, key]

/-- Witness for C1 amended at the live fraction 1/2, the percentage
sample point 50. -/
theorem C1_amended_witness :
    (1 : ℚ) / 100 < 1 / 2 ∧
    (grabV (applyOnceV
        (grabV ⟨true, "", .linear, false, 0, 0, 0, 0, 0, 1 / 2, .noAlpha⟩)
        ⟨true, "", .linear, false, 0, 0, 0, 0, 0, 1 / 2, .noAlpha⟩)).transp =
      (grabV ⟨true, "", .linear, false, 0, 0, 0, 0, 0, 1 / 2,
        .noAlpha⟩).transp :=
  ⟨by norm_num,
   C1_capture_apply_capture_amended _ (Or.inr (by norm_num))⟩

/-- C9: single pending re-apply. With exactly one selected index the
Apply handler stores (a copy of) the selected record as the one
pending snapshot — overwriting whatever was pending — and keeps the
already-armed timer interval untouched instead of arming a second
timer (it arms only when not yet armed); the pending slot is a single
Option, so at most one re-apply is ever pending. Selection changes
and Delete never touch the pending snapshot, and a Timer tick while
armed disarms: interval 0, flag false, and a further tick changes
nothing. -/
theorem C9_single_pending_reapply (st : DialogState) (vp : Option Viewport)
    (i : ℕ) (item : PresetDict)
    (hsel : st.sel = {i}) (hitem : st.items[i]? = some item) :
    cmdApply st vp =
      some ({ st with
                pending_apply := some item
                timer_interval :=
                  if st.timer_armed then st.timer_interval else TIMER_DELAY_MS
                timer_armed := true },
            (apply_once item vp).1) ∧
    (∀ st2 : DialogState, st2.timer_armed = true →
      ((dialogTimer st2 vp).1).timer_armed = false ∧
      ((dialogTimer st2 vp).1).timer_interval = 0 ∧
      ∀ vp2, dialogTimer ((dialogTimer st2 vp).1) vp2 =
        (((dialogTimer st2 vp).1), vp2)) ∧
    (∀ (st3 : DialogState) (j : ℕ) (m : SelMode),
      (modelSelect st3 j m).pending_apply = st3.pending_apply ∧
      (modelSelect st3 j m).items = st3.items) ∧
    (∀ (st4 : DialogState) (fs : FileState),
      ((cmdDel st4 fs).1).pending_apply = st4.pending_apply) := by
  refine ⟨?_, ?_, ?_, ?_⟩
  · have hs : selected_indices st.sel = [i] := by
      rw [hsel]
      exact Finset.sort_singleton _ i
    simp only [cmdApply, hs, hitem]
  · intro st2 h2
    cases hp : st2.pending_apply with
    | none => refine ⟨?_, ?_, ?_⟩ <;> simp [dialogTimer, h2, hp]
    | some p =>
      by_cases hpe : p = ({} : PresetDict) <;>
        (refine ⟨?_, ?_, ?_⟩ <;> simp [dialogTimer, h2, hp, hpe])
  · intro st3 j m
    cases m <;> exact ⟨rfl, rfl⟩
  · intro st4 fs
    rcases hsel4 : selected_indices st4.sel with _ | ⟨x, rest⟩ <;>
      simp [cmdDel, hsel4]

/-- Witness for C9 at a one-item list with item 0 selected and the
timer already armed at interval 20: Apply overwrites the pending
snapshot and leaves the armed timer as is. -/
theorem C9_witness :
    cmdApply ⟨[{ image := some "a" }], {0}, none, true, 20⟩ none =
      some (⟨[{ image := some "a" }], {0}, some { image := some "a" },
        true, 20⟩, none) :=
  (C9_single_pending_reapply ⟨[{ image := some "a" }], {0}, none, true, 20⟩
    none 0 { image := some "a" } rfl rfl).1
